import Mathlib

/-!
Shallow embedding of the design-review backend (`backend/main.py`).

The Python module keeps four module-level mutable collections: `USERS`
(never mutated), `DRAWINGS`, `ANNOTATIONS` and `WORKFLOWS`.  We model the
mutable ones as a `Store` record threaded through the operations, and the
read-only `USERS` as a constant list, exactly as the source reads it.
`datetime` values are modelled as natural numbers (encoded `YYYYMMDDHHMM`
for the seed data); each operation that calls `datetime.now()` receives
the current time as an explicit `now : Nat` argument.  An HTTP 404
(`HTTPException(status_code=404, detail=...)`) is modelled as
`ApiError.notFound detail`.
-/

namespace DRS

inductive UserRole where
  | admin
  | engineer
  | reviewer
  | viewer
deriving DecidableEq

inductive AnnotationType where
  | comment
  | highlight
  | measurement
  | stamp
  | arrow
  | rectangle
deriving DecidableEq

inductive ReviewStatus where
  | draft
  | in_review
  | approved
  | rejected
  | needs_revision
deriving DecidableEq

structure User where
  id : String
  name : String
  email : String
  role : UserRole
  avatar : Option String
deriving DecidableEq

/-- The `position` dict `{x, y, width, height}` of an annotation. -/
structure Position where
  x : Int
  y : Int
  width : Int
  height : Int
deriving DecidableEq

structure AnnotationReply where
  id : String
  author : User
  content : String
  created_at : Nat
deriving DecidableEq

structure Annotation where
  id : String
  drawing_id : String
  version_id : String
  type : AnnotationType
  author : User
  content : String
  position : Position
  created_at : Nat
  updated_at : Nat
  resolved : Bool
  replies : List AnnotationReply
deriving DecidableEq

structure Version where
  id : String
  version_number : Nat
  created_at : Nat
  created_by : User
  file_url : String
  changes_summary : Option String
  status : ReviewStatus
deriving DecidableEq

structure Drawing where
  id : String
  title : String
  description : Option String
  project_id : String
  current_version : Version
  versions : List Version
  created_at : Nat
  updated_at : Nat
deriving DecidableEq

structure ReviewWorkflow where
  id : String
  drawing_id : String
  version_id : String
  status : ReviewStatus
  reviewers : List User
  due_date : Option Nat
  created_at : Nat
  completed_at : Option Nat
deriving DecidableEq

/-- The mutable module-level collections of `main.py`. -/
structure Store where
  drawings : List Drawing
  annotations : List Annotation
  workflows : List ReviewWorkflow
deriving DecidableEq

inductive ApiError where
  | notFound : String → ApiError
deriving DecidableEq

deriving instance DecidableEq for Except

/-! ### Mock data (the seeded collections of `main.py`) -/

def alexChen : User :=
  { id := "user-1", name := "Alex Chen", email := "alex.chen@example.com",
    role := UserRole.engineer, avatar := some "AC" }

def jordanSmith : User :=
  { id := "user-2", name := "Jordan Smith", email := "jordan.smith@example.com",
    role := UserRole.reviewer, avatar := some "JS" }

def samRivera : User :=
  { id := "user-3", name := "Sam Rivera", email := "sam.rivera@example.com",
    role := UserRole.admin, avatar := some "SR" }

def USERS : List User := [alexChen, jordanSmith, samRivera]

def VERSION_1 : Version :=
  { id := "ver-1-1", version_number := 1, created_at := 202410010000,
    created_by := alexChen, file_url := "/api/files/drawing-1-v1.pdf",
    changes_summary := none, status := ReviewStatus.approved }

def VERSION_2 : Version :=
  { id := "ver-1-2", version_number := 2, created_at := 202411150000,
    created_by := alexChen, file_url := "/api/files/drawing-1-v2.pdf",
    changes_summary := some "Updated load calculations and beam specifications",
    status := ReviewStatus.in_review }

def DRAW_1 : Drawing :=
  { id := "draw-1", title := "Foundation Plan - Level B2",
    description := some "Detailed foundation and basement level structural plan",
    project_id := "proj-1", current_version := VERSION_2,
    versions := [VERSION_1, VERSION_2],
    created_at := 202410010000, updated_at := 202411150000 }

def DRAW_2 : Drawing :=
  { id := "draw-2", title := "Structural Framing - Level 15",
    description := some "Steel framing and column layout",
    project_id := "proj-1", current_version := VERSION_1,
    versions := [VERSION_1],
    created_at := 202410050000, updated_at := 202410050000 }

def DRAWINGS : List Drawing := [DRAW_1, DRAW_2]

def ANN_1 : Annotation :=
  { id := "ann-1", drawing_id := "draw-1", version_id := "ver-1-2",
    type := AnnotationType.comment, author := jordanSmith,
    content := "Please verify the rebar spacing in grid A-3. Seems tighter than spec.",
    position := { x := 450, y := 320, width := 200, height := 100 },
    created_at := 202411161030, updated_at := 202411161030, resolved := false,
    replies := [ { id := "reply-1", author := alexChen,
                   content := "Good catch! Will update to match detail 3/A2.1",
                   created_at := 202411161415 } ] }

def ANN_2 : Annotation :=
  { id := "ann-2", drawing_id := "draw-1", version_id := "ver-1-2",
    type := AnnotationType.measurement, author := alexChen,
    content := "12 ft 6 in clear height verified",
    position := { x := 200, y := 150, width := 150, height := 80 },
    created_at := 202411150900, updated_at := 202411150900, resolved := true,
    replies := [] }

def ANN_3 : Annotation :=
  { id := "ann-3", drawing_id := "draw-1", version_id := "ver-1-2",
    type := AnnotationType.stamp, author := jordanSmith,
    content := "APPROVED",
    position := { x := 650, y := 100, width := 120, height := 60 },
    created_at := 202411171645, updated_at := 202411171645, resolved := true,
    replies := [] }

def ANNOTATIONS : List Annotation := [ANN_1, ANN_2, ANN_3]

def WF_1 : ReviewWorkflow :=
  { id := "wf-1", drawing_id := "draw-1", version_id := "ver-1-2",
    status := ReviewStatus.in_review, reviewers := [jordanSmith],
    due_date := some 202411300000, created_at := 202411150000,
    completed_at := none }

def WORKFLOWS : List ReviewWorkflow := [WF_1]

/-- The state of the module-level collections right after start-up. -/
def initStore : Store :=
  { drawings := DRAWINGS, annotations := ANNOTATIONS, workflows := WORKFLOWS }

/-! ### Operations (the API endpoints of `main.py`) -/

/-- Python mutates the first object matching an id in place; this helper
rewrites the first list element satisfying `p` and leaves the rest alone. -/
def updateFirst {α : Type} (p : α → Bool) (f : α → α) : List α → List α
  | [] => []
  | x :: xs => if p x then f x :: xs else x :: updateFirst p f xs

/-- `next((u for u in USERS if u.id == uid), USERS[0])` with an optional id
(`uid = None` matches no user, so it also falls back to `USERS[0]`). -/
def userOrDefault (uid : Option String) : User :=
  match USERS.find? (fun u => some u.id == uid) with
  | some u => u
  | none => alexChen

/-- `next((u for u in USERS if u.id == uid), USERS[0])` with a plain id. -/
def userOrDefaultS (uid : String) : User :=
  match USERS.find? (fun u => u.id == uid) with
  | some u => u
  | none => alexChen

/-- The in-place mutation `annotation.resolved = b`. -/
def setResolved (b : Bool) (x : Annotation) : Annotation := { x with resolved := b }

/-- The in-place mutation `annotation.replies.append(reply)`. -/
def appendReplyUpd (r : AnnotationReply) (x : Annotation) : Annotation :=
  { x with replies := x.replies ++ [r] }

/-- The in-place mutations of `update_workflow_status`: set the status, and set
`completed_at = now` exactly when the new status is `approved` or `rejected`. -/
def setStatusUpd (st : ReviewStatus) (now : Nat) (x : ReviewWorkflow) : ReviewWorkflow :=
  { x with status := st,
           completed_at :=
             if st = ReviewStatus.approved ∨ st = ReviewStatus.rejected
             then some now else x.completed_at }

/-- The in-place mutations of `create_version` on the drawing: append the new
version, make it current, bump `updated_at`. -/
def appendVersionUpd (v : Version) (now : Nat) (x : Drawing) : Drawing :=
  { x with versions := x.versions ++ [v], current_version := v, updated_at := now }

/-- Request body of `POST /api/annotations`; `author_id` is
`Optional[str] = "user-1"` in the source. -/
structure CreateAnnotationRequest where
  drawing_id : String
  version_id : String
  type : AnnotationType
  content : String
  position : Position
  author_id : Option String
deriving DecidableEq

/-- `create_annotation` (`POST /api/annotations`): resolves the author with a
silent fallback to `USERS[0]`, generates id `ann-{len(ANNOTATIONS) + 1}`, and
appends the new annotation; it never fails. -/
def create_annotation (request : CreateAnnotationRequest) (now : Nat) (s : Store) :
    Annotation × Store :=
  let author := userOrDefault request.author_id
  let new_annotation : Annotation :=
    { id := "ann-" ++ Nat.repr (s.annotations.length + 1),
      drawing_id := request.drawing_id, version_id := request.version_id,
      type := request.type, author := author, content := request.content,
      position := request.position, created_at := now, updated_at := now,
      resolved := false, replies := [] }
  ( new_annotation, { s with annotations := s.annotations ++ [ new_annotation] })

/-- `resolve_annotation` (`PUT /api/annotations/{id}/resolve`). -/
def resolve_annotation (annotation_id : String) (s : Store) :
    Except ApiError ( Annotation × Store) :=
  match s.annotations.find? (fun a => a.id == annotation_id) with
  | none => Except.error (ApiError.notFound "Annotation not found")
  | some a =>
    let anns := updateFirst (fun b => b.id == annotation_id) (setResolved true) s.annotations
    Except.ok (setResolved true a, { s with annotations := anns })

/-- `unresolve_annotation` (`PUT /api/annotations/{id}/unresolve`). -/
def unresolve_annotation (annotation_id : String) (s : Store) :
    Except ApiError ( Annotation × Store) :=
  match s.annotations.find? (fun a => a.id == annotation_id) with
  | none => Except.error (ApiError.notFound "Annotation not found")
  | some a =>
    let anns := updateFirst (fun b => b.id == annotation_id) (setResolved false) s.annotations
    Except.ok (setResolved false a, { s with annotations := anns })

/-- `delete_annotation` (`DELETE /api/annotations/{id}`): checks presence, then
rebinds `ANNOTATIONS` to the list without that id. -/
def delete_annotation (annotation_id : String) (s : Store) :
    Except ApiError (String × Store) :=
  match s.annotations.find? (fun a => a.id == annotation_id) with
  | none => Except.error (ApiError.notFound "Annotation not found")
  | some _ =>
    Except.ok (annotation_id,
      { s with annotations := s.annotations.filter (fun a => a.id != annotation_id) })

/-- `get_annotations` (`GET /api/drawings/{id}/annotations`). -/
def get_annotations (drawing_id : String) (version_id : Option String) (s : Store) :
    List Annotation :=
  let anns := s.annotations.filter (fun a => a.drawing_id == drawing_id)
  match version_id with
  | some vid => anns.filter (fun a => a.version_id == vid)
  | none => anns

/-- `add_reply` (`POST /api/annotations/{id}/replies`); `author_id` defaults to
`"user-1"` and falls back to `USERS[0]` when unknown. -/
def add_reply (annotation_id : String) (content : String) (author_id : String)
    (now : Nat) (s : Store) : Except ApiError ( Annotation × Store) :=
  match s.annotations.find? (fun a => a.id == annotation_id) with
  | none => Except.error (ApiError.notFound "Annotation not found")
  | some a =>
    let reply : AnnotationReply :=
      { id := "reply-" ++ Nat.repr (a.replies.length + 1),
        author := userOrDefaultS author_id, content := content, created_at := now }
    let anns := updateFirst (fun b => b.id == annotation_id) (appendReplyUpd reply) s.annotations
    Except.ok (appendReplyUpd reply a, { s with annotations := anns })

/-- `update_workflow_status` (`PUT /api/workflows/{id}/status`): sets the
status unconditionally; sets `completed_at = now` only when the new status is
`approved` or `rejected` (and touches nothing else). -/
def update_workflow_status (workflow_id : String) (status : ReviewStatus)
    (now : Nat) (s : Store) : Except ApiError (ReviewWorkflow × Store) :=
  match s.workflows.find? (fun w => w.id == workflow_id) with
  | none => Except.error (ApiError.notFound "Workflow not found")
  | some w =>
    let ws := updateFirst (fun x => x.id == workflow_id) (setStatusUpd status now) s.workflows
    Except.ok (setStatusUpd status now w, { s with workflows := ws })

/-- Request body of `POST /api/drawings/{id}/versions`; `created_by_id` is
`Optional[str] = "user-1"` in the source. -/
structure CreateVersionRequest where
  file_url : String
  changes_summary : Option String
  created_by_id : Option String
deriving DecidableEq

/-- `create_version` (`POST /api/drawings/{id}/versions`): 404 when the drawing
is unknown; silent fallback to `USERS[0]` for the creator; the new version gets
`version_number = len(drawing.versions) + 1`, status `draft`, is appended to the
drawing's versions, becomes `current_version`, and `updated_at` is bumped. -/
def create_version (drawing_id : String) (request : CreateVersionRequest)
    (now : Nat) (s : Store) : Except ApiError ( Version × Store) :=
  match s.drawings.find? (fun d => d.id == drawing_id) with
  | none => Except.error (ApiError.notFound "Drawing not found")
  | some drawing =>
    let new_version_number := drawing.versions.length + 1
    let new_version : Version :=
      { id := "ver-" ++ drawing_id ++ "-" ++ Nat.repr new_version_number,
        version_number := new_version_number, created_at := now,
        created_by := userOrDefault request.created_by_id, file_url := request.file_url,
        changes_summary := request.changes_summary, status := ReviewStatus.draft }
    let ds := updateFirst (fun d => d.id == drawing_id) (appendVersionUpd new_version now) s.drawings
    Except.ok (new_version, { s with drawings := ds })

/-! ### Characterizations of the operations by the outcome of the id lookup -/

/-- The `new_version` local of `create_version`, as a function of the found
drawing. -/
def mkNewVersion (drawing_id : String) (request : CreateVersionRequest) (now : Nat)
    (drawing : Drawing) : Version :=
  { id := "ver-" ++ drawing_id ++ "-" ++ Nat.repr (drawing.versions.length + 1),
    version_number := drawing.versions.length + 1, created_at := now,
    created_by := userOrDefault request.created_by_id, file_url := request.file_url,
    changes_summary := request.changes_summary, status := ReviewStatus.draft }

/-- The `reply` local of `add_reply`, as a function of the found annotation. -/
def mkReply (a : Annotation) (content : String) (author_id : String) (now : Nat) :
    AnnotationReply :=
  { id := "reply-" ++ Nat.repr (a.replies.length + 1),
    author := userOrDefaultS author_id, content := content, created_at := now }

theorem resolve_found {aid : String} {s : Store} {a : Annotation}
    (hf : s.annotations.find? (fun x => x.id == aid) = some a) :
    resolve_annotation aid s = Except.ok (setResolved true a,
      { s with annotations :=
          (updateFirst (fun b => b.id == aid) (setResolved true) s.annotations) }) := by
  simp only [ resolve_annotation, hf]

theorem resolve_notFound {aid : String} {s : Store}
    (hf : s.annotations.find? (fun x => x.id == aid) = none) :
    resolve_annotation aid s = Except.error (ApiError.notFound "Annotation not found") := by
  simp only [ resolve_annotation, hf]

theorem unresolve_found {aid : String} {s : Store} {a : Annotation}
    (hf : s.annotations.find? (fun x => x.id == aid) = some a) :
    unresolve_annotation aid s = Except.ok (setResolved false a,
      { s with annotations :=
          (updateFirst (fun b => b.id == aid) (setResolved false) s.annotations) }) := by
  simp only [ unresolve_annotation, hf]

theorem unresolve_notFound {aid : String} {s : Store}
    (hf : s.annotations.find? (fun x => x.id == aid) = none) :
    unresolve_annotation aid s = Except.error (ApiError.notFound "Annotation not found") := by
  simp only [ unresolve_annotation, hf]

theorem delete_found {aid : String} {s : Store} {a : Annotation}
    (hf : s.annotations.find? (fun x => x.id == aid) = some a) :
    delete_annotation aid s = Except.ok (aid,
      { s with annotations := (s.annotations.filter (fun x => x.id != aid)) }) := by
  simp only [ delete_annotation, hf]

theorem delete_notFound {aid : String} {s : Store}
    (hf : s.annotations.find? (fun x => x.id == aid) = none) :
    delete_annotation aid s = Except.error (ApiError.notFound "Annotation not found") := by
  simp only [ delete_annotation, hf]

theorem add_reply_found {aid content author_id : String} {now : Nat} {s : Store}
    {a : Annotation}
    (hf : s.annotations.find? (fun x => x.id == aid) = some a) :
    add_reply aid content author_id now s = Except.ok
      (appendReplyUpd (mkReply a content author_id now) a,
       { s with annotations :=
           (updateFirst (fun b => b.id == aid)
             (appendReplyUpd (mkReply a content author_id now)) s.annotations) }) := by
  simp only [add_reply, hf, mkReply]

theorem add_reply_notFound {aid content author_id : String} {now : Nat} {s : Store}
    (hf : s.annotations.find? (fun x => x.id == aid) = none) :
    add_reply aid content author_id now s =
      Except.error (ApiError.notFound "Annotation not found") := by
  simp only [add_reply, hf]

theorem update_workflow_status_found {wid : String} {st : ReviewStatus} {now : Nat}
    {s : Store} {w : ReviewWorkflow}
    (hf : s.workflows.find? (fun x => x.id == wid) = some w) :
    update_workflow_status wid st now s = Except.ok (setStatusUpd st now w,
      { s with workflows :=
          (updateFirst (fun x => x.id == wid) (setStatusUpd st now) s.workflows) }) := by
  simp only [update_workflow_status, hf]

theorem update_workflow_status_notFound {wid : String} {st : ReviewStatus} {now : Nat}
    {s : Store}
    (hf : s.workflows.find? (fun x => x.id == wid) = none) :
    update_workflow_status wid st now s =
      Except.error (ApiError.notFound "Workflow not found") := by
  simp only [update_workflow_status, hf]

theorem create_version_found {did : String} {req : CreateVersionRequest} {now : Nat}
    {s : Store} {d0 : Drawing}
    (hf : s.drawings.find? (fun x => x.id == did) = some d0) :
    create_version did req now s = Except.ok (mkNewVersion did req now d0,
      { s with drawings :=
          (updateFirst (fun x => x.id == did)
            (appendVersionUpd (mkNewVersion did req now d0) now) s.drawings) }) := by
  simp only [create_version, hf, mkNewVersion]

theorem create_version_notFound {did : String} {req : CreateVersionRequest} {now : Nat}
    {s : Store}
    (hf : s.drawings.find? (fun x => x.id == did) = none) :
    create_version did req now s = Except.error (ApiError.notFound "Drawing not found") := by
  simp only [create_version, hf]

/-! ### Helper lemmas about `updateFirst` -/

theorem find?_updateFirst {α : Type} (p : α → Bool) (f : α → α)
    (hf : ∀ x, p (f x) = p x) (l : List α) :
    List.find? p (updateFirst p f l) = (List.find? p l).map f := by
  induction l with
  | nil => rfl
  | cons x xs ih =>
    by_cases hx : p x = true
    · simp [updateFirst, hx, List.find?_cons_of_pos, hf]
    · have hx' : p x = false := by simpa using hx
      simp [updateFirst, hx', List.find?_cons_of_neg, ih]

theorem mem_updateFirst {α : Type} {p : α → Bool} {f : α → α} {l : List α} {y : α}
    (h : y ∈ updateFirst p f l) :
    y ∈ l ∨ ∃ x, List.find? p l = some x ∧ y = f x := by
  induction l with
  | nil => simp [updateFirst] at h
  | cons x xs ih =>
    by_cases hx : p x = true
    · simp only [updateFirst, hx, if_pos] at h
      rcases List.mem_cons.mp h with h1 | h2
      · exact Or.inr ⟨x, List.find?_cons_of_pos _ hx, h1⟩
      · exact Or.inl (List.mem_cons_of_mem _ h2)
    · have hx' : p x = false := by simpa using hx
      simp only [updateFirst, hx', if_neg, Bool.false_eq_true, not_false_iff] at h
      rcases List.mem_cons.mp h with h1 | h2
      · exact Or.inl (h1 ▸ List.mem_cons_self x xs)
      · rcases ih h2 with h3 | ⟨z, hz, hy⟩
        · exact Or.inl (List.mem_cons_of_mem _ h3)
        · refine Or.inr ⟨z, ?_, hy⟩
          rw [List.find?_cons_of_neg _ hx]
          exact hz

theorem updateFirst_idem {α : Type} (p : α → Bool) (f : α → α)
    (hp : ∀ x, p (f x) = p x) (hf : ∀ x, f (f x) = f x) (l : List α) :
    updateFirst p f (updateFirst p f l) = updateFirst p f l := by
  induction l with
  | nil => rfl
  | cons x xs ih =>
    by_cases hx : p x = true
    · simp [updateFirst, hx, hp, hf]
    · have hx' : p x = false := by simpa using hx
      simp [updateFirst, hx', ih]

/-! ### Injectivity of `Nat.repr`

The annotation ids generated by the source are the strings
`"ann-" ++ Nat.repr k`.  To reason about their distinctness we prove that
`Nat.repr` (decimal printing) is injective, by exhibiting a left inverse
built from the decimal value of a digit string. -/

/-- Value of a decimal digit character. -/
def decDigitVal (c : Char) : Nat := c.toNat - 48

/-- Decimal value of a digit string (most significant digit first). -/
def decValue (ds : List Char) : Nat :=
  ds.foldl (fun acc c => 10 * acc + decDigitVal c) 0

theorem decValue_concat (l : List Char) (c : Char) :
    decValue (l ++ [c]) = 10 * decValue l + decDigitVal c := by
  simp [decValue, List.foldl_append]

theorem decDigitVal_digitChar : ∀ m : Nat, m < 10 → decDigitVal (Nat.digitChar m) = m := by
  decide

theorem toDigitsCore_append (b fuel : Nat) : ∀ (n : Nat) (ds : List Char),
    Nat.toDigitsCore b fuel n ds = Nat.toDigitsCore b fuel n [] ++ ds := by
  induction fuel with
  | zero => intro n ds; simp [Nat.toDigitsCore]
  | succ f ih =>
    intro n ds
    simp only [Nat.toDigitsCore]
    by_cases h : n / b = 0
    · simp [h]
    · simp only [h, if_neg, ite_false]
      rw [ih (n / b) (Nat.digitChar (n % b) :: ds), ih (n / b) [Nat.digitChar (n % b)]]
      simp

theorem decValue_toDigitsCore : ∀ (fuel n : Nat), n < 10 ^ fuel →
    decValue (Nat.toDigitsCore 10 fuel n []) = n := by
  intro fuel
  induction fuel with
  | zero =>
    intro n hn
    have : n = 0 := Nat.lt_one_iff.mp (by simpa using hn)
    subst this
    rfl
  | succ f ih =>
    intro n hn
    simp only [Nat.toDigitsCore]
    by_cases h : n / 10 = 0
    · have hlt : n < 10 := (Nat.div_eq_zero_iff (by norm_num)).mp h
      have h10 := decDigitVal_digitChar (n % 10) (Nat.mod_lt _ (by norm_num))
      have hv : decValue [Nat.digitChar (n % 10)] = decDigitVal (Nat.digitChar (n % 10)) := by
        simp [decValue]
      simp only [h, reduceIte]
      rw [hv, h10, Nat.mod_eq_of_lt hlt]
    · simp only [h, if_neg, ite_false]
      rw [toDigitsCore_append, decValue_concat,
        ih (n / 10) (by rw [Nat.div_lt_iff_lt_mul (by norm_num)]; rw [pow_succ] at hn; exact hn),
        decDigitVal_digitChar (n % 10) (Nat.mod_lt _ (by norm_num))]
      omega

theorem decValue_repr (n : Nat) : decValue (Nat.repr n).data = n := by
  have hfuel : n < 10 ^ (n + 1) := by
    calc n < 10 ^ n := Nat.lt_pow_self (by norm_num) n
    _ ≤ 10 ^ (n + 1) := Nat.pow_le_pow_right (by norm_num) (Nat.le_succ n)
  simpa [Nat.repr, Nat.toDigits, List.asString] using decValue_toDigitsCore (n + 1) n hfuel

theorem repr_injective : Function.Injective Nat.repr := by
  intro m n h
  have hd : (Nat.repr m).data = (Nat.repr n).data := congrArg String.data h
  have := congrArg decValue hd
  rwa [decValue_repr, decValue_repr] at this

/-- The id-generator `i ↦ "ann-" ++ Nat.repr (i + 1)` of `create_annotation`
is injective. -/
theorem annId_injective : Function.Injective (fun i : Nat => "ann-" ++ Nat.repr (i + 1)) := by
  intro a b h
  have hd := congrArg String.data h
  simp only [String.data_append] at hd
  have hr : (Nat.repr (a + 1)).data = (Nat.repr (b + 1)).data :=
    List.append_cancel_left hd
  have := congrArg decValue hr
  rw [decValue_repr, decValue_repr] at this
  omega

/-! ### Reachability by sequences of `create_version` calls -/

/-- One call of `POST /api/drawings/{drawing_id}/versions`. -/
structure CVCall where
  drawing_id : String
  request : CreateVersionRequest
  now : Nat
deriving DecidableEq

/-- Execute one `create_version` call; a 404 leaves the store unchanged. -/
def applyCV (s : Store) (c : CVCall) : Store :=
  match create_version c.drawing_id c.request c.now s with
  | Except.ok (_, s') => s'
  | Except.error _ => s

/-- Execute a sequence of `create_version` calls. -/
def runCV (s : Store) (cs : List CVCall) : Store := cs.foldl applyCV s

/-- The C6 invariant for one drawing: version numbers are exactly
`1, 2, …, n` in order, and `current_version` is the last version. -/
def versionsOK (d : Drawing) : Prop :=
  d.versions.map (fun v => v.version_number) = List.range' 1 d.versions.length ∧
  d.versions.getLast? = some d.current_version

theorem versionsOK_append {d : Drawing} {v : Version} {now : Nat}
    (hn : v.version_number = d.versions.length + 1) (h : versionsOK d) :
    versionsOK (appendVersionUpd v now d) := by
  obtain ⟨h1, h2⟩ := h
  constructor
  · simp only [appendVersionUpd, List.map_append, List.length_append, h1, hn,
      List.map_cons, List.map_nil, List.length_cons, List.length_nil]
    rw [List.range'_concat]
    simp [Nat.add_comm]
  · simp [appendVersionUpd, List.getLast?_concat]

theorem versionsOK_applyCV {s : Store} (hs : ∀ d ∈ s.drawings, versionsOK d)
    (c : CVCall) : ∀ d ∈ (applyCV s c).drawings, versionsOK d := by
  intro d hd
  cases hf : s.drawings.find? (fun x => x.id == c.drawing_id) with
  | none =>
    have happ : applyCV s c = s := by
      unfold applyCV
      rw [create_version_notFound hf]
    rw [happ] at hd
    exact hs d hd
  | some d0 =>
    have happ : (applyCV s c).drawings =
        updateFirst (fun x => x.id == c.drawing_id)
          (appendVersionUpd (mkNewVersion c.drawing_id c.request c.now d0) c.now)
          s.drawings := by
      unfold applyCV
      rw [create_version_found hf]
    rw [happ] at hd
    rcases mem_updateFirst hd with h1 | ⟨x, hx, hdx⟩
    · exact hs d h1
    · rw [hf] at hx
      have hx0 : d0 = x := Option.some.inj hx
      subst hdx
      subst hx0
      exact versionsOK_append rfl (hs d0 (List.mem_of_find?_eq_some hf))

theorem versionsOK_init : ∀ d ∈ initStore.drawings, versionsOK d := by
  intro d hd
  fin_cases hd <;> exact ⟨by decide, by decide⟩

theorem runCV_inv : ∀ (cs : List CVCall) (s : Store),
    (∀ d ∈ s.drawings, versionsOK d) → ∀ d ∈ (runCV s cs).drawings, versionsOK d := by
  intro cs
  induction cs with
  | nil => intro s hs; simpa [runCV] using hs
  | cons c cs ih =>
    intro s hs
    have : runCV s (c :: cs) = runCV (applyCV s c) cs := by simp [runCV]
    rw [this]
    exact ih (applyCV s c) (versionsOK_applyCV hs c)

/-! ### Claim theorems -/

/-- A well-formed create-version request used for witnesses. -/
def cvReqW : CreateVersionRequest :=
  { file_url := "http://blob/a.pdf", changes_summary := some "initial",
    created_by_id := some "user-1" }

/-- C1: for every drawing in the store and every create-version request whose
`created_by` id resolves to a known user, `create_version` returns a new
version numbered `len(versions) + 1` with status `draft`, appends it to the
drawing's versions, makes it `current_version`, and bumps `updated_at` to the
operation time; an unknown drawing id yields NotFound. -/
theorem create_version_behavior :
    (∀ (s : Store) (did : String) (req : CreateVersionRequest) (now : Nat) (d : Drawing),
      s.drawings.find? (fun x => x.id == did) = some d →
      (USERS.find? (fun u => some u.id == req.created_by_id)).isSome = true →
      ∃ (v : Version) (s' : Store),
        create_version did req now s = Except.ok (v, s') ∧
        v.version_number = d.versions.length + 1 ∧
        v.status = ReviewStatus.draft ∧
        s'.drawings.find? (fun x => x.id == did) =
          some { d with versions := d.versions ++ [v], current_version := v,
                        updated_at := now }) ∧
    (∀ (s : Store) (did : String) (req : CreateVersionRequest) (now : Nat),
      s.drawings.find? (fun x => x.id == did) = none →
      create_version did req now s = Except.error (ApiError.notFound "Drawing not found")) := by
  constructor
  · intro s did req now d hf _
    refine ⟨mkNewVersion did req now d, _, create_version_found hf, rfl, rfl, ?_⟩
    show List.find? (fun x => x.id == did)
        (updateFirst (fun x => x.id == did)
          (appendVersionUpd (mkNewVersion did req now d) now) s.drawings) =
      some { d with versions := d.versions ++ [mkNewVersion did req now d],
                    current_version := mkNewVersion did req now d, updated_at := now }
    rw [find?_updateFirst (fun x => x.id == did)
      (appendVersionUpd (mkNewVersion did req now d) now) (fun x => rfl) s.drawings, hf]
    rfl
  · intro s did req now hf
    exact create_version_notFound hf

theorem create_version_behavior_witness :
    ∃ (v : Version) (s' : Store),
      create_version "draw-1" cvReqW 7 initStore = Except.ok (v, s') ∧
      v.version_number = DRAW_1.versions.length + 1 ∧
      v.status = ReviewStatus.draft ∧
      s'.drawings.find? (fun x => x.id == "draw-1") =
        some { DRAW_1 with versions := DRAW_1.versions ++ [v], current_version := v,
                           updated_at := 7 } :=
  create_version_behavior.1 initStore "draw-1" cvReqW 7 DRAW_1 (by decide) (by decide)

/-- C6: in every state reachable from the seeded data by `create_version`
calls, every drawing's version numbers are exactly `1, 2, …, n` in order with
no gaps or repeats, and `current_version` is the last version in the
sequence. -/
theorem version_numbers_dense :
    ∀ (cs : List CVCall) (d : Drawing), d ∈ (runCV initStore cs).drawings →
      d.versions.map (fun v => v.version_number) = List.range' 1 d.versions.length ∧
      d.versions.getLast? = some d.current_version := by
  intro cs d hd
  exact runCV_inv cs initStore versionsOK_init d hd

theorem version_numbers_dense_witness :
    (appendVersionUpd (mkNewVersion "draw-2" cvReqW 9 DRAW_2) 9 DRAW_2).versions.map
        (fun v => v.version_number) =
      List.range' 1 (appendVersionUpd (mkNewVersion "draw-2" cvReqW 9 DRAW_2) 9
        DRAW_2).versions.length ∧
    (appendVersionUpd (mkNewVersion "draw-2" cvReqW 9 DRAW_2) 9 DRAW_2).versions.getLast? =
      some (appendVersionUpd (mkNewVersion "draw-2" cvReqW 9 DRAW_2) 9 DRAW_2).current_version :=
  version_numbers_dense [{ drawing_id := "draw-2", request := cvReqW, now := 9 }]
    (appendVersionUpd (mkNewVersion "draw-2" cvReqW 9 DRAW_2) 9 DRAW_2) (by decide)

/-- Intermediate store used by the C7 witness: the seed store after
`resolve_annotation "ann-1"`. -/
def resStore : Store :=
  { initStore with annotations := [setResolved true ANN_1, ANN_2, ANN_3] }

/-- C7: resolving then unresolving an annotation leaves it with
`resolved = false`; `resolve` is idempotent on the returned annotation and the
store; both operations fail with NotFound when the id does not resolve. -/
theorem resolve_unresolve_behavior :
    (∀ (s : Store) (aid : String) (a1 : Annotation) (s1 : Store),
      resolve_annotation aid s = Except.ok (a1, s1) →
      ∃ (a2 : Annotation) (s2 : Store),
        unresolve_annotation aid s1 = Except.ok (a2, s2) ∧ a2.resolved = false) ∧
    (∀ (s : Store) (aid : String) (a1 : Annotation) (s1 : Store),
      resolve_annotation aid s = Except.ok (a1, s1) →
      resolve_annotation aid s1 = Except.ok (a1, s1)) ∧
    (∀ (s : Store) (aid : String),
      s.annotations.find? (fun x => x.id == aid) = none →
      resolve_annotation aid s = Except.error (ApiError.notFound "Annotation not found") ∧
      unresolve_annotation aid s = Except.error (ApiError.notFound "Annotation not found")) := by
  refine ⟨?_, ?_, ?_⟩
  · intro s aid a1 s1 h
    cases hf : s.annotations.find? (fun x => x.id == aid) with
    | none => rw [resolve_notFound hf] at h; cases h
    | some a =>
      rw [resolve_found hf] at h
      injection h with h1
      injection h1 with ha hs
      subst ha
      subst hs
      have hf1 : List.find? (fun x => x.id == aid)
          (updateFirst (fun b => b.id == aid) (setResolved true) s.annotations) =
          some (setResolved true a) := by
        rw [find?_updateFirst (fun x => x.id == aid) (setResolved true) (fun x => rfl)
          s.annotations, hf]
        rfl
      exact ⟨_, _, unresolve_found hf1, rfl⟩
  · intro s aid a1 s1 h
    cases hf : s.annotations.find? (fun x => x.id == aid) with
    | none => rw [resolve_notFound hf] at h; cases h
    | some a =>
      rw [resolve_found hf] at h
      injection h with h1
      injection h1 with ha hs
      subst ha
      subst hs
      have hf1 : List.find? (fun x => x.id == aid)
          (updateFirst (fun b => b.id == aid) (setResolved true) s.annotations) =
          some (setResolved true a) := by
        rw [find?_updateFirst (fun x => x.id == aid) (setResolved true) (fun x => rfl)
          s.annotations, hf]
        rfl
      rw [resolve_found hf1]
      have h2 : updateFirst (fun b => b.id == aid) (setResolved true)
          (updateFirst (fun b => b.id == aid) (setResolved true) s.annotations) =
          updateFirst (fun b => b.id == aid) (setResolved true) s.annotations :=
        updateFirst_idem (fun b => b.id == aid) (setResolved true) (fun x => rfl)
          (fun x => rfl) s.annotations
      show Except.ok (setResolved true (setResolved true a),
        { s with annotations := (updateFirst (fun b => b.id == aid) (setResolved true)
            (updateFirst (fun b => b.id == aid) (setResolved true) s.annotations)) }) = _
      rw [h2]
      rfl
  · intro s aid hf
    exact ⟨resolve_notFound hf, unresolve_notFound hf⟩

theorem resolve_unresolve_behavior_witness :
    (∃ (a2 : Annotation) (s2 : Store),
      unresolve_annotation "ann-1" resStore = Except.ok (a2, s2) ∧ a2.resolved = false) ∧
    resolve_annotation "ann-1" resStore = Except.ok (setResolved true ANN_1, resStore) ∧
    ( resolve_annotation "missing" initStore =
        Except.error (ApiError.notFound "Annotation not found") ∧
      unresolve_annotation "missing" initStore =
        Except.error (ApiError.notFound "Annotation not found")) :=
  ⟨resolve_unresolve_behavior.1 initStore "ann-1" (setResolved true ANN_1) resStore (by decide),
   resolve_unresolve_behavior.2.1 initStore "ann-1" (setResolved true ANN_1) resStore (by decide),
   resolve_unresolve_behavior.2.2 initStore "missing" (by decide)⟩

theorem mem_of_mem_get_annotations {did : String} {vid : Option String} {s : Store}
    {a : Annotation} (h : a ∈ get_annotations did vid s) : a ∈ s.annotations := by
  unfold get_annotations at h
  cases vid with
  | none => exact List.mem_of_mem_filter h
  | some v => exact List.mem_of_mem_filter (List.mem_of_mem_filter h)

/-- The seed store after `delete_annotation "ann-1"`, used by the C8 witness. -/
def delStore : Store := { initStore with annotations := [ANN_2, ANN_3] }

/-- C8: a successful `delete_annotation` removes the annotation (and with it
its owned reply thread) from every subsequent `list_annotations` result, for
any drawing/version filter; deleting an unknown id yields NotFound. -/
theorem delete_behavior :
    (∀ (s : Store) (aid : String) (x : String) (s' : Store),
      delete_annotation aid s = Except.ok (x, s') →
      ∀ (did : String) (vid : Option String) (a : Annotation),
        a ∈ get_annotations did vid s' → a.id ≠ aid) ∧
    (∀ (s : Store) (aid : String),
      s.annotations.find? (fun t => t.id == aid) = none →
      delete_annotation aid s = Except.error (ApiError.notFound "Annotation not found")) := by
  constructor
  · intro s aid x s' h did vid a ha
    cases hf : s.annotations.find? (fun t => t.id == aid) with
    | none => rw [delete_notFound hf] at h; cases h
    | some b =>
      rw [delete_found hf] at h
      injection h with h1
      injection h1 with hx hs
      subst hs
      have ha' : a ∈ s.annotations.filter (fun t => t.id != aid) :=
        mem_of_mem_get_annotations ha
      have := List.of_mem_filter ha'
      simpa [bne_iff_ne] using this
  · intro s aid hf
    exact delete_notFound hf

theorem delete_behavior_witness :
    ANN_2.id ≠ "ann-1" ∧
    delete_annotation "missing" initStore =
      Except.error (ApiError.notFound "Annotation not found") :=
  ⟨delete_behavior.1 initStore "ann-1" "ann-1" delStore (by decide) "draw-1" none ANN_2
      (by decide),
   delete_behavior.2 initStore "missing" (by decide)⟩

/-- `WF_1` after `update_workflow_status("wf-1", approved)` at time 5. -/
def wfApproved5 : ReviewWorkflow := setStatusUpd ReviewStatus.approved 5 WF_1

/-- The seed store after `update_workflow_status("wf-1", approved)` at time 5. -/
def storeApproved5 : Store := { initStore with workflows := [wfApproved5] }

/-- C2 (divergence witness): setting workflow `wf-1` to `approved` succeeds,
but the referenced version `ver-1-2` keeps its old status `in_review` — the
code never propagates the workflow status onto the Version. -/
theorem workflow_status_not_mirrored :
    update_workflow_status "wf-1" ReviewStatus.approved 5 initStore =
      Except.ok (wfApproved5, storeApproved5) ∧
    wfApproved5.status = ReviewStatus.approved ∧
    WF_1.version_id = "ver-1-2" ∧
    DRAW_1 ∈ storeApproved5.drawings ∧
    VERSION_2 ∈ DRAW_1.versions ∧
    VERSION_2.id = "ver-1-2" ∧
    VERSION_2.status = ReviewStatus.in_review := by decide

/-- A create-annotation request whose author id `user-9` matches no user. -/
def reqUnknownAuthor : CreateAnnotationRequest :=
  { drawing_id := "draw-1", version_id := "ver-1-2", type := AnnotationType.comment,
    content := "Check spacing", position := { x := 0, y := 0, width := 10, height := 10 },
    author_id := some "user-9" }

/-- A create-version request whose creator id `user-9` matches no user. -/
def reqUnknownCreator : CreateVersionRequest :=
  { file_url := "http://blob/a.pdf", changes_summary := none,
    created_by_id := some "user-9" }

/-- C3 (divergence witness): `user-9` is not a known user, yet
`create_annotation`, `add_reply` and `create_version` all succeed and silently
substitute the default user `user-1` (`USERS[0]`) instead of failing with
NotFound. -/
theorem silent_default_user_fallback :
    (∀ u ∈ USERS, u.id ≠ "user-9") ∧
    ( create_annotation reqUnknownAuthor 0 initStore).1.author = alexChen ∧
    alexChen.id = "user-1" ∧
    (∃ (a : Annotation) (s' : Store),
      add_reply "ann-1" "hello" "user-9" 0 initStore = Except.ok (a, s') ∧
      a.replies.getLast? = some (mkReply ANN_1 "hello" "user-9" 0) ∧
      (mkReply ANN_1 "hello" "user-9" 0).author = alexChen) ∧
    (∃ (v : Version) (s' : Store),
      create_version "draw-1" reqUnknownCreator 0 initStore = Except.ok (v, s') ∧
      v.created_by = alexChen) := by
  have hf1 : initStore.annotations.find? (fun x => x.id == "ann-1") = some ANN_1 := by decide
  have hf2 : initStore.drawings.find? (fun x => x.id == "draw-1") = some DRAW_1 := by decide
  refine ⟨by decide, by decide, by decide,
    ⟨_, _, add_reply_found hf1, by decide, by decide⟩,
    ⟨_, _, create_version_found hf2, by decide⟩⟩

/-- `WF_1` after the (invalid) transition `in_review → draft` at time 5. -/
def wfDraft5 : ReviewWorkflow := setStatusUpd ReviewStatus.draft 5 WF_1

/-- C4 (divergence witness): workflow `wf-1` is `in_review`; the transition
`in_review → draft` is outside the allowed table, yet the code accepts it and
mutates the status instead of failing with InvalidTransition. -/
theorem invalid_transition_accepted :
    WF_1.status = ReviewStatus.in_review ∧
    update_workflow_status "wf-1" ReviewStatus.draft 5 initStore =
      Except.ok (wfDraft5, { initStore with workflows := [wfDraft5] }) ∧
    wfDraft5.status = ReviewStatus.draft := by decide

/-- `wfApproved5` after a further `update_workflow_status("wf-1", draft)` at
time 6: the status changes but `completed_at` keeps its old value. -/
def wfDraftAfterApproved : ReviewWorkflow := setStatusUpd ReviewStatus.draft 6 wfApproved5

/-- C5 counterexample: after approving `wf-1` (which sets `completed_at`),
setting any non-approved/rejected status succeeds but does NOT clear
`completed_at` — the workflow ends with status `draft` and
`completed_at = some 5`, refuting the claimed "cleared to absent" behaviour
and the claimed iff. -/
theorem completed_at_not_cleared :
    update_workflow_status "wf-1" ReviewStatus.approved 5 initStore =
      Except.ok (wfApproved5, storeApproved5) ∧
    update_workflow_status "wf-1" ReviewStatus.draft 6 storeApproved5 =
      Except.ok (wfDraftAfterApproved,
        { storeApproved5 with workflows := [wfDraftAfterApproved] }) ∧
    wfDraftAfterApproved.status = ReviewStatus.draft ∧
    wfDraftAfterApproved.completed_at = some 5 ∧
    ¬ wfDraftAfterApproved.completed_at = none := by decide

/-- C5 amended: a successful `update_workflow_status` sets the status to the
requested value; it sets `completed_at` to the operation time exactly when the
new status is `approved` or `rejected`, and otherwise leaves `completed_at`
unchanged (it is not cleared). -/
theorem update_workflow_status_completed_at :
    ∀ (s : Store) (wid : String) (st : ReviewStatus) (now : Nat)
      (w : ReviewWorkflow) (s' : Store),
      update_workflow_status wid st now s = Except.ok (w, s') →
      w.status = st ∧
      ((st = ReviewStatus.approved ∨ st = ReviewStatus.rejected) →
        w.completed_at = some now) ∧
      (¬(st = ReviewStatus.approved ∨ st = ReviewStatus.rejected) →
        ∃ w0, s.workflows.find? (fun x => x.id == wid) = some w0 ∧
          w.completed_at = w0.completed_at) := by
  intro s wid st now w s' h
  cases hf : s.workflows.find? (fun x => x.id == wid) with
  | none => rw [update_workflow_status_notFound hf] at h; cases h
  | some w0 =>
    rw [update_workflow_status_found hf] at h
    injection h with h1
    injection h1 with hw hs
    subst hw
    subst hs
    refine ⟨rfl, ?_, ?_⟩
    · intro hc
      simp [setStatusUpd, if_pos hc]
    · intro hc
      exact ⟨w0, rfl, by simp [setStatusUpd, if_neg hc]⟩

theorem update_workflow_status_completed_at_witness :
    wfApproved5.status = ReviewStatus.approved ∧
    ((ReviewStatus.approved = ReviewStatus.approved ∨
        ReviewStatus.approved = ReviewStatus.rejected) →
      wfApproved5.completed_at = some 5) ∧
    (¬(ReviewStatus.approved = ReviewStatus.approved ∨
        ReviewStatus.approved = ReviewStatus.rejected) →
      ∃ w0, initStore.workflows.find? (fun x => x.id == "wf-1") = some w0 ∧
        wfApproved5.completed_at = w0.completed_at) :=
  update_workflow_status_completed_at initStore "wf-1" ReviewStatus.approved 5
    wfApproved5 storeApproved5 (by decide)

/-- A create-annotation request naming a drawing and version that do not
exist in the seed store. -/
def reqGhost : CreateAnnotationRequest :=
  { drawing_id := "draw-404", version_id := "ver-404", type := AnnotationType.comment,
    content := "ghost", position := { x := 0, y := 0, width := 1, height := 1 },
    author_id := some "user-1" }

/-- C9 counterexample: `create_annotation` succeeds against the seed store for
a request naming drawing `draw-404`, which exists nowhere in the store; the
resulting state contains an annotation whose `drawing_id` references no
drawing, refuting the claimed referential invariant and the claimed
validation. -/
theorem annotation_reference_unchecked :
    ( create_annotation reqGhost 0 initStore).1 ∈
      ( create_annotation reqGhost 0 initStore).2.annotations ∧
    ( create_annotation reqGhost 0 initStore).1.drawing_id = "draw-404" ∧
    ( create_annotation reqGhost 0 initStore).1.version_id = "ver-404" ∧
    (∀ d ∈ ( create_annotation reqGhost 0 initStore).2.drawings, d.id ≠ "draw-404") := by
  decide

/-- C9 amended: `create_annotation` performs no validation of `drawing_id` or
`version_id`: it succeeds for every request and records the supplied ids
verbatim in the stored annotation. -/
theorem create_annotation_unvalidated :
    ∀ (req : CreateAnnotationRequest) (now : Nat) (s : Store),
      ( create_annotation req now s).1.drawing_id = req.drawing_id ∧
      ( create_annotation req now s).1.version_id = req.version_id ∧
      ( create_annotation req now s).1 ∈ ( create_annotation req now s).2.annotations := by
  intro req now s
  refine ⟨rfl, rfl, ?_⟩
  show _ ∈ s.annotations ++ [( create_annotation req now s).1]
  exact List.mem_append_right _ (List.mem_singleton_self _)

/-! ### Reachability by sequences of `create_annotation` calls (for C10) -/

/-- One call of `POST /api/annotations`. -/
structure CACall where
  request : CreateAnnotationRequest
  now : Nat
deriving DecidableEq

/-- Execute one `create_annotation` call (it always succeeds). -/
def applyCA (s : Store) (c : CACall) : Store := ( create_annotation c.request c.now s).2

/-- Execute a sequence of `create_annotation` calls. -/
def runCA (s : Store) (cs : List CACall) : Store := cs.foldl applyCA s

/-- The id list `["ann-1", …, "ann-n"]` produced by the source's
length-based id generator. -/
def annIdSpecList (n : Nat) : List String :=
  (List.range n).map (fun i => "ann-" ++ Nat.repr (i + 1))

/-- The C10 invariant: the stored annotation ids are exactly
`ann-1 … ann-n` in order, where `n` is the store size. -/
def annIdsOK (s : Store) : Prop :=
  s.annotations.map (fun a => a.id) = annIdSpecList s.annotations.length

theorem annIdsOK_applyCA {s : Store} (h : annIdsOK s) (c : CACall) :
    annIdsOK (applyCA s c) := by
  have h' : s.annotations.map (fun a => a.id) = annIdSpecList s.annotations.length := h
  show (s.annotations ++ [( create_annotation c.request c.now s).1]).map (fun a => a.id) =
    annIdSpecList ((s.annotations ++ [( create_annotation c.request c.now s).1]).length)
  rw [List.map_append, h', List.length_append, List.length_singleton]
  unfold annIdSpecList
  rw [List.range_succ, List.map_append]
  rfl

theorem annIdsOK_init : annIdsOK initStore := by
  show initStore.annotations.map (fun a => a.id) = annIdSpecList initStore.annotations.length
  decide

theorem runCA_inv : ∀ (cs : List CACall) (s : Store),
    annIdsOK s → annIdsOK (runCA s cs) := by
  intro cs
  induction cs with
  | nil => intro s hs; simpa [runCA] using hs
  | cons c cs ih =>
    intro s hs
    have : runCA s (c :: cs) = runCA (applyCA s c) cs := by simp [runCA]
    rw [this]
    exact ih (applyCA s c) (annIdsOK_applyCA hs c)

theorem annIdSpecList_nodup (n : Nat) : (annIdSpecList n).Nodup :=
  List.Nodup.map annId_injective (List.nodup_range n)

/-- First create-annotation call of the C10 counterexample. -/
def reqDupA : CreateAnnotationRequest :=
  { drawing_id := "draw-1", version_id := "ver-1-2", type := AnnotationType.comment,
    content := "first duplicate", position := { x := 0, y := 0, width := 1, height := 1 },
    author_id := some "user-1" }

/-- Second create-annotation call of the C10 counterexample. -/
def reqDupB : CreateAnnotationRequest :=
  { reqDupA with content := "second duplicate" }

def annDupA : Annotation := ( create_annotation reqDupA 0 initStore).1

def storeDupA : Store := ( create_annotation reqDupA 0 initStore).2

def storeDupB : Store :=
  { storeDupA with annotations := (storeDupA.annotations.filter (fun x => x.id != "ann-1")) }

def annDupB : Annotation := ( create_annotation reqDupB 0 storeDupB).1

def storeDupC : Store := ( create_annotation reqDupB 0 storeDupB).2

/-- C10 counterexample: from the seed store, create an annotation (it gets id
`ann-4`), delete `ann-1`, and create another annotation: the length-based id
generator assigns `ann-4` again, so the store holds two distinct annotations
with the same id. -/
theorem annotation_ids_collide :
    delete_annotation "ann-1" storeDupA = Except.ok ("ann-1", storeDupB) ∧
    annDupA ∈ storeDupC.annotations ∧
    annDupB ∈ storeDupC.annotations ∧
    annDupA ≠ annDupB ∧
    annDupA.id = "ann-4" ∧
    annDupB.id = "ann-4" := by decide

/-- C10 amended: annotation ids are generated as `"ann-" ++ (store size + 1)`,
so in every state reachable from the seed by `create_annotation` calls alone
(no deletions) the annotation ids are pairwise distinct; interleaving
`delete_annotation` breaks this (see the counterexample). -/
theorem annotation_ids_nodup_without_delete :
    ∀ (cs : List CACall),
      ((runCA initStore cs).annotations.map (fun a => a.id)).Nodup := by
  intro cs
  have h : annIdsOK (runCA initStore cs) := runCA_inv cs initStore annIdsOK_init
  have h' : (runCA initStore cs).annotations.map (fun a => a.id) =
      annIdSpecList (runCA initStore cs).annotations.length := h
  rw [h']
  exact annIdSpecList_nodup _

end DRS
